import Mathlib

/-!
Verification development for the metrics comparison service
(`calculateBreakupForRatioMetrics`, `getSortedDimensionsBreakup`,
`getDefaultTimeRange`, `getMetricsComparisonData` and its
`executeQueryWithFallback` query path).

The repository ships the Jest unit and integration tests of
`src/services/metrics/metricsComparison.service.js` together with the
specification, but not the service file itself.  The definitions below are
therefore modelled from the specification (sections 4.1-4.4, 6), with field
names and call shapes taken from the test files
(`__tests__/unit/services/metrics/metricsComparison.service.test.js` and
`__tests__/integration/services/metrics/metricsComparison.service.test.js`),
which exercise the service through exactly these interfaces.
-/

namespace MetricsComparison

/-- A JavaScript-like value as it flows through the calculator: a finite
number, `null`, `undefined`, positive/negative infinity or NaN.  The
calculator never inspects these beyond passing them to the expression
evaluator, so the exact carrier for finite numbers (here `ℚ`) is immaterial. -/
inductive JsValue where
  | num (q : ℚ)
  | null
  | undef
  | inf
  | negInf
  | nan
  deriving DecidableEq, Repr

/-- A constituent metric reference, e.g. `{ name: 'checkouts' }`. -/
structure MetricRef where
  name : String
  deriving DecidableEq, Repr

/-- Modelled from the spec: a raw numerator series point of the missing
`metricsComparison.service.js`.  In the JS tests the point is
`{ __time, dim_val: '["USA"]', sum_kpi: '[100]' }`, with `dim_val` and
`sum_kpi` JSON-encoded parallel arrays that the service decodes before use
(spec section 4.1, "decode before use"); the model carries the decoded
semantic containers directly. -/
structure NumPoint where
  __time : String
  dim_val : List String
  sum_kpi : List JsValue
  deriving DecidableEq, Repr

/-- Modelled from the spec: a denominator point `{ y: '[200]' }` of the missing
service, carrying (decoded) the denominator's aggregate magnitudes for one
alignment slot. -/
structure DenPoint where
  y : List JsValue
  deriving DecidableEq, Repr

/-- An output/breakup row: timestamp, dimension-value label and a metric
value.  Used both for simple-metric breakup rows and for the rows produced by
the ratio calculator (spec section 3, ComparisonResultRow). -/
structure DataRow where
  __time : String
  dim_val : String
  sum_kpi : JsValue
  deriving DecidableEq, Repr

/-- An evaluation scope: the name-to-value binding list handed to the
expression evaluator (spec section 6, ExpressionEvaluator). -/
abbrev Scope : Type := List (String × JsValue)

/-- The scope built for one numerator/denominator value pair:
`{ <numeratorName>: numeratorValue, <denominatorName>: denominatorValue }`
(spec section 4.1 step 5).  The values are bound as-is, without coercion. -/
def ratioScope (numName denName : String) (numVal denVal : JsValue) : Scope :=
  [(numName, numVal), (denName, denVal)]

/-- The symbolic name bound for a constituent metric list: the first entry's
name (the tests always pass singleton lists such as `[{ name: 'checkouts' }]`). -/
def metricName : List MetricRef → String
  | m :: _ => m.name
  | [] => ""

/-- The single aggregate denominator value of an aligned denominator point:
the first element of its decoded `y` array (spec section 4.1 step 4). -/
def denPointValue (dp : DenPoint) : JsValue :=
  dp.y.headD JsValue.undef

/-- Modelled from the spec: the rows the missing service emits for one
numerator point, given the already-aligned denominator value.  If the label
list or the value list decodes to an empty sequence the point is skipped
(spec section 4.1 step 2); otherwise one row per label/value pair is emitted,
whose value is exactly the evaluator's result (spec section 4.1 steps 5-6). -/
def rowsForPoint (evalExpr : String → Scope → JsValue) (operation : String)
    (numName denName : String) (denVal : JsValue) (p : NumPoint) : List DataRow :=
  if p.dim_val.isEmpty || p.sum_kpi.isEmpty then []
  else (p.dim_val.zip p.sum_kpi).map fun lv =>
    { __time := p.__time
      dim_val := lv.1
      sum_kpi := evalExpr operation (ratioScope numName denName lv.2 denVal) }

/-- The evaluator scopes built for one numerator point (the observable
evaluator invocations corresponding to `rowsForPoint`). -/
def callsForPoint (numName denName : String) (denVal : JsValue) (p : NumPoint) :
    List Scope :=
  if p.dim_val.isEmpty || p.sum_kpi.isEmpty then []
  else (p.dim_val.zip p.sum_kpi).map fun lv => ratioScope numName denName lv.2 denVal

/-- Modelled from the spec: the loop body of the missing
`calculateBreakupForRatioMetrics`.  The numerator point at running index `i`
is paired with `denominatorSeries[offset + i]`, where `offset` was computed
once up front (spec section 4.1 step 3); a numerator point with no aligned
denominator point produces no rows. -/
def ratioRowsAux (evalExpr : String → Scope → JsValue) (operation : String)
    (numName denName : String) (den : List DenPoint) (offset : Nat) :
    Nat → List NumPoint → List DataRow
  | _, [] => []
  | i, p :: ps =>
      (match den.get? (offset + i) with
       | some dp => rowsForPoint evalExpr operation numName denName (denPointValue dp) p
       | none => [])
      ++ ratioRowsAux evalExpr operation numName denName den offset (i + 1) ps

/-- The evaluator scopes built by `ratioRowsAux`, in invocation order. -/
def ratioCallsAux (numName denName : String) (den : List DenPoint) (offset : Nat) :
    Nat → List NumPoint → List Scope
  | _, [] => []
  | i, p :: ps =>
      (match den.get? (offset + i) with
       | some dp => callsForPoint numName denName (denPointValue dp) p
       | none => [])
      ++ ratioCallsAux numName denName den offset (i + 1) ps

/-- The result wrapper: the JS service returns `{ data: rows }`. -/
structure RatioBreakupResult where
  data : List DataRow
  deriving DecidableEq, Repr

/-- Modelled from the spec: `calculateBreakupForRatioMetrics` of the missing
`metricsComparison.service.js` (spec section 4.1).  An empty numerator series
short-circuits to an empty row list; otherwise the series is walked with the
alignment offset `denominatorSeries.length - numeratorSeries.length`. -/
def calculateBreakupForRatioMetrics (evalExpr : String → Scope → JsValue)
    (numeratorData : List NumPoint) (denominatorData : List DenPoint)
    (numerator_metric denominator_metric : List MetricRef)
    (operation : String) : RatioBreakupResult :=
  if numeratorData.isEmpty then ⟨[]⟩
  else ⟨ratioRowsAux evalExpr operation
          (metricName numerator_metric) (metricName denominator_metric)
          denominatorData (denominatorData.length - numeratorData.length)
          0 numeratorData⟩

/-- The full list of evaluator invocations (scopes) performed by
`calculateBreakupForRatioMetrics`, in order. -/
def ratioEvalCalls (numeratorData : List NumPoint) (denominatorData : List DenPoint)
    (numerator_metric denominator_metric : List MetricRef) : List Scope :=
  if numeratorData.isEmpty then []
  else ratioCallsAux (metricName numerator_metric) (metricName denominator_metric)
         denominatorData (denominatorData.length - numeratorData.length)
         0 numeratorData

/-- Spec-side alignment statement for claim C2, following the spec's words:
for a denominator series longer than the numerator series by `k`, the
numerator point at index `i` is evaluated against the denominator point at
index `k + i`.  Stated as a direct per-index pairing, to be compared with the
single-offset loop of `calculateBreakupForRatioMetrics`. -/
def alignmentSpecRows (evalExpr : String → Scope → JsValue) (operation : String)
    (numName denName : String) (num : List NumPoint) (den : List DenPoint)
    (k : Nat) : List DataRow :=
  (List.range num.length).flatMap fun i =>
    match num.get? i, den.get? (k + i) with
    | some p, some dp => rowsForPoint evalExpr operation numName denName (denPointValue dp) p
    | _, _ => []

/-- A canonical sort-order entry as returned by the sort-order query:
`{ dim_name, sort_order }`.  `dim_name` may be SQL `null` (spec section 4.2). -/
structure SortOrderEntry where
  dim_name : Option String
  deriving DecidableEq, Repr

/-- The comparison key of a sort-order entry: a `null` dimension name is
treated as the literal string "null" (spec section 4.2). -/
def sortKey (e : SortOrderEntry) : String :=
  match e.dim_name with
  | some s => s
  | none => "null"

/-- The rank of a label in the canonical order: its first index in the
canonical label list, or -1 when absent, mirroring JavaScript
`Array.prototype.indexOf` (spec sections 4.2 and 9). -/
def dimRank (sortOrderArray : List SortOrderEntry) (label : String) : Int :=
  match (sortOrderArray.map sortKey).indexOf? label with
  | some n => (n : Int)
  | none => -1

/-- The numeric comparator of the sorter: row `a` precedes row `b` when its
label's canonical rank is no larger. -/
def dimComparator (sortOrderArray : List SortOrderEntry) (a b : DataRow) : Prop :=
  dimRank sortOrderArray a.dim_val ≤ dimRank sortOrderArray b.dim_val

instance (sortOrderArray : List SortOrderEntry) :
    DecidableRel (dimComparator sortOrderArray) := fun _ _ =>
  inferInstanceAs (Decidable (_ ≤ _))

instance (sortOrderArray : List SortOrderEntry) :
    IsTotal DataRow (dimComparator sortOrderArray) :=
  ⟨fun _ _ => Int.le_total _ _⟩

instance (sortOrderArray : List SortOrderEntry) :
    IsTrans DataRow (dimComparator sortOrderArray) :=
  ⟨fun _ _ _ hab hbc => le_trans hab hbc⟩

/-- Modelled from the spec: `getSortedDimensionsBreakup` of the missing
`metricsComparison.service.js` (spec section 4.2): sort the rows by the
rank of their label in the canonical order, with a stable comparison sort
(the in-place mutation of the JS array is outside a pure embedding; the
model returns the reordered list). -/
def getSortedDimensionsBreakup (dimensionsData : List DataRow)
    (sortOrderArray : List SortOrderEntry) : List DataRow :=
  dimensionsData.insertionSort (dimComparator sortOrderArray)

/-- An instant, as milliseconds since the epoch (the JS service works on
`Date` values and returns ISO-8601 strings; the model uses the underlying
instants). -/
abbrev Instant : Type := Int

/-- Milliseconds per day. -/
def msPerDay : Int := 86400000

/-- A reporting frequency code: hourly, daily, weekly or monthly. -/
inductive Frequency where
  | h
  | d
  | w
  | m
  deriving DecidableEq, Repr

/-- Modelled from the spec: the lookback window in days for each frequency
(spec section 4.3 step 3). -/
def lookbackDays : Frequency → Nat
  | .h => 2
  | .d => 7
  | .w => 30
  | .m => 90

/-- A response of the external query collaborator:
`{ status: HTTP-like code, success: bool, data: rows[] }` (spec section 6). -/
structure PolarisResponse (α : Type) where
  status : Nat
  success : Bool
  data : List α
  deriving DecidableEq, Repr

/-- The outcome of a query issued through the fallback path: the final
response, how many physical query attempts were made, and how many warnings
were logged. -/
structure FallbackResult (α : Type) where
  resp : PolarisResponse α
  attempts : Nat
  warnings : Nat
  deriving DecidableEq, Repr

/-- Modelled from the spec: `executeQueryWithFallback` of the missing
`metricsComparison.service.js` (spec section 4.4, FallbackRetry).  `exec`
runs the logical query against the primary (`false`) or the fallback
(`true`) data source.  On a primary status of 404 or 400 a warning is
logged and the query is re-issued against the fallback exactly once; the
fallback's response is final.  Any other primary status is final
immediately. -/
def executeQueryWithFallback {α : Type} (exec : Bool → PolarisResponse α) :
    FallbackResult α :=
  let primary := exec false
  if primary.status = 404 ∨ primary.status = 400 then
    { resp := exec true, attempts := 2, warnings := 1 }
  else
    { resp := primary, attempts := 1, warnings := 0 }

/-- A record returned by the last-data-timestamp query. -/
structure TsRecord where
  last_data_ts : Instant
  deriving DecidableEq, Repr

/-- A resolved time range. -/
structure TimeRange where
  start_time : Instant
  end_time : Instant
  deriving DecidableEq, Repr

/-- Modelled from the spec: `getDefaultTimeRange` of the missing
`metricsComparison.service.js` (spec section 4.3).  The last-data-timestamp
query is issued through the fallback path; if its final response has success
status and at least one record, the end of the range is that record's
`last_data_ts`, otherwise the current wall-clock time `now`; the start is
always the end minus the frequency's lookback.  Returns the range together
with the number of warnings logged by the query path. -/
def getDefaultTimeRange (lastTsExec : Bool → PolarisResponse TsRecord)
    (now : Instant) (frequency : Frequency) : TimeRange × Nat :=
  let fr := executeQueryWithFallback lastTsExec
  let endT : Instant :=
    match fr.resp.data with
    | rec :: _ => if fr.resp.status = 200 then rec.last_data_ts else now
    | [] => now
  ({ start_time := endT - msPerDay * lookbackDays frequency, end_time := endT }, fr.warnings)

/-- The metric kind: simple or ratio (spec section 3). -/
inductive MetricType where
  | simple
  | ratioKind
  deriving DecidableEq, Repr

/-- The constituent metric references of a ratio metric. -/
structure ConstituentMetrics where
  numerator : List MetricRef
  denominator : List MetricRef
  deriving DecidableEq, Repr

/-- A metric (KPI) definition as resolved from the repository
(spec section 3; integration test mock shape). -/
structure Kpi where
  id : String
  type : MetricType
  constituent_metrics : Option ConstituentMetrics
  rca_aggregation_operation : String
  deriving DecidableEq, Repr

/-- A dimension definition. -/
structure Dimension where
  id : String
  name : String
  deriving DecidableEq, Repr

/-- A request to `getMetricsComparisonData`, matching the argument object the
integration tests pass (unused routing fields omitted). -/
structure Request where
  kpis : String
  start_time : Option Instant
  end_time : Option Instant
  tenant_id : String
  pipeline_schedule : Frequency
  dimension_id : String
  deriving DecidableEq, Repr

/-- The per-timestamp output group `{ timestamp, results }` (spec section 4.4,
Assemble). -/
structure TsGroup where
  timestamp : String
  results : List DataRow
  deriving DecidableEq, Repr

/-- The distinct timestamps of a row list, in order of first occurrence. -/
def uniqueTimes (rows : List DataRow) : List String :=
  rows.foldl (fun acc r => if r.__time ∈ acc then acc else acc ++ [r.__time]) []

/-- Modelled from the spec: the Assemble step of the missing service (spec
section 4.4): group the rows by timestamp, preserving the chronological order
in which timestamps were first encountered, sorting each group by the
canonical order. -/
def assembleGroups (sortOrderData : List SortOrderEntry) (rows : List DataRow) :
    List TsGroup :=
  (uniqueTimes rows).map fun t =>
    { timestamp := t
      results := getSortedDimensionsBreakup
                   (rows.filter (fun r => r.__time == t)) sortOrderData }

/-- The error taxonomy of the service (spec section 7). -/
inductive ServiceError where
  | metricNotFound (kpiId : String)
  | dimensionNotFound (dimensionId : String)
  | missingConstituentMetrics
  | upstreamQueryError
  deriving DecidableEq, Repr

/-- The external collaborators of one `getMetricsComparisonData` call,
injected as explicit values: the repository lookups, one query executor per
logical query (each taking the primary/fallback flag), the expression
evaluator and the wall clock. -/
structure Env where
  metric : Option Kpi
  dimension : Option Dimension
  lastTsExec : Bool → PolarisResponse TsRecord
  breakupExec : Bool → PolarisResponse DataRow
  numExec : Bool → PolarisResponse NumPoint
  denomExec : Bool → PolarisResponse DenPoint
  sortExec : Bool → PolarisResponse SortOrderEntry
  evalExpr : String → Scope → JsValue
  now : Instant

/-- Modelled from the spec: `getMetricsComparisonData` of the missing
`metricsComparison.service.js` (spec section 4.4).  Resolve the metric and the
dimension (fatal not-found errors), resolve the time range (defaulting through
the last-data-timestamp query when absent), verify a ratio metric's
constituents before any series fetch (the integration test reaches
`No Constituent metrics configured` with no query executor stubbed), then
fetch the series and the canonical sort order through the fallback query path,
failing with an upstream error on any final non-success status, and assemble
the per-timestamp groups.  Returns the outcome together with the total number
of warnings logged. -/
def getMetricsComparisonData (env : Env) (req : Request) :
    Except ServiceError (List TsGroup) × Nat :=
  match env.metric with
  | none => (.error (.metricNotFound req.kpis), 0)
  | some kpi =>
    match env.dimension with
    | none => (.error (.dimensionNotFound req.dimension_id), 0)
    | some _dim =>
      let rangeAndWarn : TimeRange × Nat :=
        match req.start_time, req.end_time with
        | some s, some e => ({ start_time := s, end_time := e }, 0)
        | _, _ => getDefaultTimeRange env.lastTsExec env.now req.pipeline_schedule
      let w0 := rangeAndWarn.2
      match kpi.type with
      | .simple =>
        let fb := executeQueryWithFallback env.breakupExec
        if fb.resp.status ≠ 200 then (.error .upstreamQueryError, w0 + fb.warnings)
        else
          let fs := executeQueryWithFallback env.sortExec
          if fs.resp.status ≠ 200 then
            (.error .upstreamQueryError, w0 + fb.warnings + fs.warnings)
          else
            (.ok (assembleGroups fs.resp.data fb.resp.data),
             w0 + fb.warnings + fs.warnings)
      | .ratioKind =>
        match kpi.constituent_metrics with
        | none => (.error .missingConstituentMetrics, w0)
        | some cm =>
          if cm.numerator.isEmpty || cm.denominator.isEmpty then
            (.error .missingConstituentMetrics, w0)
          else
            let fn := executeQueryWithFallback env.numExec
            if fn.resp.status ≠ 200 then (.error .upstreamQueryError, w0 + fn.warnings)
            else
              let fs := executeQueryWithFallback env.sortExec
              if fs.resp.status ≠ 200 then
                (.error .upstreamQueryError, w0 + fn.warnings + fs.warnings)
              else
                let fd := executeQueryWithFallback env.denomExec
                if fd.resp.status ≠ 200 then
                  (.error .upstreamQueryError, w0 + fn.warnings + fs.warnings + fd.warnings)
                else
                  let rows := (calculateBreakupForRatioMetrics env.evalExpr
                    fn.resp.data fd.resp.data cm.numerator cm.denominator
                    kpi.rca_aggregation_operation).data
                  (.ok (assembleGroups fs.resp.data rows),
                   w0 + fn.warnings + fs.warnings + fd.warnings)

/-- A concrete division evaluator used to instantiate the theorems on the
test scenarios (mirrors the integration tests' mathjs stub). -/
def witnessEval : String → Scope → JsValue := fun _ sc =>
  match sc with
  | [(_, JsValue.num a), (_, JsValue.num b)] =>
      if b = 0 then JsValue.inf else JsValue.num (a / b)
  | _ => JsValue.nan

/-- Concrete numerator constituent reference, as in the unit tests. -/
def checkoutsRef : List MetricRef := [{ name := "checkouts" }]

/-- Concrete denominator constituent reference, as in the unit tests. -/
def visitorsRef : List MetricRef := [{ name := "visitors" }]

/-- Concrete one-point numerator series (unit test, offset scenario). -/
def witnessNum : List NumPoint :=
  [{ __time := "2025-01-03T00:00:00Z", dim_val := ["USA"],
     sum_kpi := [JsValue.num 100] }]

/-- Concrete two-point numerator series with two and one labels. -/
def witnessNum4 : List NumPoint :=
  [{ __time := "2025-01-01T00:00:00Z", dim_val := ["USA", "Canada"],
     sum_kpi := [JsValue.num 100, JsValue.num 50] },
   { __time := "2025-01-02T00:00:00Z", dim_val := ["USA"],
     sum_kpi := [JsValue.num 150] }]

/-- Concrete three-point denominator series (unit test, offset scenario). -/
def witnessDen3 : List DenPoint :=
  [{ y := [JsValue.num 50] }, { y := [JsValue.num 75] },
   { y := [JsValue.num 200] }]

/-- Concrete one-point denominator series. -/
def witnessDen1 : List DenPoint := [{ y := [JsValue.num 200] }]

/-- Concrete two-point denominator series. -/
def witnessDen4 : List DenPoint :=
  [{ y := [JsValue.num 500] }, { y := [JsValue.num 600] }]

/-- Concrete simple metric definition (integration test mock). -/
def witnessKpiSimple : Kpi :=
  { id := "kpi-001", type := .simple, constituent_metrics := none,
    rca_aggregation_operation := "" }

/-- Concrete ratio metric whose constituents are missing. -/
def witnessKpiRatioBad : Kpi :=
  { id := "kpi-001", type := .ratioKind, constituent_metrics := none,
    rca_aggregation_operation := "checkouts / visitors" }

/-- Concrete dimension definition. -/
def witnessDimension : Dimension := { id := "dim-001", name := "country" }

/-- Concrete request with an explicit time range. -/
def witnessReq : Request :=
  { kpis := "kpi-001", start_time := some 0, end_time := some 604800000,
    tenant_id := "test-tenant-001", pipeline_schedule := .d,
    dimension_id := "dim-001" }

/-- Concrete request without a time range. -/
def witnessReqNoRange : Request :=
  { witnessReq with start_time := none, end_time := none }

/-- A concrete 404 not-found response. -/
def resp404 {α : Type} : PolarisResponse α :=
  { status := 404, success := false, data := [] }

/-- A concrete environment whose breakup query answers 404 on both the
primary and the fallback source. -/
def witnessEnvFFail : Env :=
  { metric := some witnessKpiSimple
    dimension := some witnessDimension
    lastTsExec := fun _ =>
      { status := 200, success := true, data := [{ last_data_ts := 1000 }] }
    breakupExec := fun _ => resp404
    numExec := fun _ => { status := 200, success := true, data := [] }
    denomExec := fun _ => { status := 200, success := true, data := [] }
    sortExec := fun _ =>
      { status := 200, success := true, data := [{ dim_name := some "USA" }] }
    evalExpr := witnessEval
    now := 555 }

/-- A concrete environment with a ratio metric lacking constituents. -/
def witnessEnvRatio : Env :=
  { witnessEnvFFail with metric := some witnessKpiRatioBad }

/-- A concrete environment for the no-explicit-range path: the
last-data-timestamp query needs its fallback, the breakup and sort-order
queries succeed on the primary source. -/
def witnessEnvC10 : Env :=
  { witnessEnvFFail with
    lastTsExec := fun fb =>
      if fb then { status := 200, success := true, data := [{ last_data_ts := 1000 }] }
      else resp404
    breakupExec := fun _ =>
      { status := 200, success := true,
        data := [{ __time := "T1", dim_val := "USA", sum_kpi := JsValue.num 1000 }] } }

/-- A concrete last-data-timestamp query executor answering one record. -/
def witnessLastTs200 : Bool → PolarisResponse TsRecord := fun _ =>
  { status := 200, success := true, data := [{ last_data_ts := 1000 }] }

theorem rowsForPoint_length (e : String → Scope → JsValue) (op nm dn : String)
    (dv : JsValue) (p : NumPoint) (hpar : p.dim_val.length = p.sum_kpi.length) :
    (rowsForPoint e op nm dn dv p).length = p.dim_val.length := by
  rw [rowsForPoint]
  rcases hd : p.dim_val with _ | ⟨a, as⟩
  · simp [hd]
  · rcases hk : p.sum_kpi with _ | ⟨b, bs⟩
    · rw [hd, hk] at hpar; simp at hpar
    · rw [hd, hk] at hpar
      simp only [List.length_cons] at hpar
      simp [hd, hk, List.length_zip]
      omega

theorem rowsForPoint_map_val (e : String → Scope → JsValue) (op nm dn : String)
    (dv : JsValue) (p : NumPoint) :
    (rowsForPoint e op nm dn dv p).map (fun r => r.sum_kpi)
      = (callsForPoint nm dn dv p).map (e op) := by
  rw [rowsForPoint, callsForPoint]
  by_cases h : p.dim_val.isEmpty || p.sum_kpi.isEmpty
  · simp [h]
  · rw [if_neg h, if_neg h, List.map_map, List.map_map]
    rfl

theorem ratioRowsAux_map_val (e : String → Scope → JsValue) (op nm dn : String)
    (den : List DenPoint) (off : Nat) :
    ∀ (num : List NumPoint) (i : Nat),
      (ratioRowsAux e op nm dn den off i num).map (fun r => r.sum_kpi)
        = (ratioCallsAux nm dn den off i num).map (e op)
  | [], _ => by simp [ratioRowsAux, ratioCallsAux]
  | p :: ps, i => by
      rw [ratioRowsAux, ratioCallsAux, List.map_append, List.map_append,
          ratioRowsAux_map_val e op nm dn den off ps (i + 1)]
      congr 1
      cases den.get? (off + i) with
      | none => rfl
      | some dp => exact rowsForPoint_map_val e op nm dn (denPointValue dp) p

theorem mem_ratioCallsAux (nm dn : String) (den : List DenPoint) (off : Nat) :
    ∀ (num : List NumPoint) (i : Nat) (sc : Scope),
      sc ∈ ratioCallsAux nm dn den off i num →
      ∃ p, p ∈ num ∧ ∃ v, v ∈ p.sum_kpi ∧ ∃ dv, sc = ratioScope nm dn v dv
  | [], _, sc => by simp [ratioCallsAux]
  | p :: ps, i, sc => by
      rw [ratioCallsAux]
      intro h
      rcases List.mem_append.mp h with h1 | h2
      · revert h1
        cases den.get? (off + i) with
        | none => simp
        | some dp =>
          simp only [callsForPoint]
          by_cases hemp : p.dim_val.isEmpty || p.sum_kpi.isEmpty
          · simp [hemp]
          · rw [if_neg hemp]
            intro h1
            rcases List.mem_map.mp h1 with ⟨lv, hlv, hsc⟩
            rcases lv with ⟨l, v⟩
            exact ⟨p, List.mem_cons_self p ps, v, (List.of_mem_zip hlv).2,
                   denPointValue dp, hsc.symm⟩
      · rcases mem_ratioCallsAux nm dn den off ps (i + 1) sc h2 with ⟨q, hq, rest⟩
        exact ⟨q, List.mem_cons_of_mem p hq, rest⟩

theorem ratioRowsAux_eq_range (e : String → Scope → JsValue) (op nm dn : String)
    (den : List DenPoint) (off : Nat) :
    ∀ (num : List NumPoint) (i : Nat),
      ratioRowsAux e op nm dn den off i num
        = (List.range num.length).flatMap fun j =>
            match num.get? j, den.get? (off + i + j) with
            | some p, some dp => rowsForPoint e op nm dn (denPointValue dp) p
            | _, _ => []
  | [], i => by simp [ratioRowsAux]
  | p :: ps, i => by
      rw [ratioRowsAux, ratioRowsAux_eq_range e op nm dn den off ps (i + 1)]
      rw [List.length_cons, List.range_succ_eq_map, List.flatMap_cons, List.flatMap_map]
      congr 1
      · rw [show off + i + 0 = off + i from rfl]
        cases den.get? (off + i) <;> rfl
      · congr 1
        funext j
        rw [show off + i + (j + 1) = off + (i + 1) + j by omega]
        rfl

theorem ratioRowsAux_length (e : String → Scope → JsValue) (op nm dn : String)
    (den : List DenPoint) (off : Nat) :
    ∀ (num : List NumPoint) (i : Nat),
      (∀ p ∈ num, p.dim_val.length = p.sum_kpi.length) →
      off + i + num.length ≤ den.length →
      (ratioRowsAux e op nm dn den off i num).length
        = (num.map fun p => p.dim_val.length).sum
  | [], _, _, _ => by simp [ratioRowsAux]
  | p :: ps, i, hpar, hlen => by
      have hi : off + i < den.length := by
        simp only [List.length_cons] at hlen
        omega
      obtain ⟨dp, hdp⟩ : ∃ dp, den.get? (off + i) = some dp :=
        ⟨den.get ⟨off + i, hi⟩, List.get?_eq_get hi⟩
      rw [ratioRowsAux, hdp, List.length_append,
          ratioRowsAux_length e op nm dn den off ps (i + 1)
            (fun q hq => hpar q (List.mem_cons_of_mem p hq))
            (by simp only [List.length_cons] at hlen; omega),
          rowsForPoint_length e op nm dn (denPointValue dp) p
            (hpar p (List.mem_cons_self p ps))]
      simp

/-- C2: for a denominator series longer than the numerator series by `k`
(`den.length = num.length + k`), `calculateBreakupForRatioMetrics` evaluates
the numerator point at index `i` against the denominator point at index
`k + i` — its output coincides with the spec-side per-index pairing
`alignmentSpecRows` at exactly that offset `k`; taking `k = 0` (equal
lengths) this is direct index alignment. -/
theorem claim_C2_alignment_offset (e : String → Scope → JsValue)
    (num : List NumPoint) (den : List DenPoint) (nm dm : List MetricRef)
    (op : String) (k : Nat) (hk : den.length = num.length + k) :
    (calculateBreakupForRatioMetrics e num den nm dm op).data
      = alignmentSpecRows e op (metricName nm) (metricName dm) num den k := by
  have hoff : den.length - num.length = k := by omega
  rw [calculateBreakupForRatioMetrics, alignmentSpecRows]
  by_cases hemp : num.isEmpty
  · have hnil : num = [] := by simpa using hemp
    subst hnil
    simp
  · rw [if_neg hemp, hoff,
        ratioRowsAux_eq_range e op (metricName nm) (metricName dm) den k num 0]
    rfl

/-- C4: for a non-empty numerator series with an equal-length denominator
series and parallel label/value arrays, the row count of
`calculateBreakupForRatioMetrics` is the sum of the per-point label-list
lengths, and a point whose label list or value list is empty contributes no
rows. -/
theorem claim_C4_row_count (e : String → Scope → JsValue)
    (num : List NumPoint) (den : List DenPoint) (nm dm : List MetricRef)
    (op : String) (hne : num ≠ []) (hlen : den.length = num.length)
    (hpar : ∀ p ∈ num, p.dim_val.length = p.sum_kpi.length) :
    (calculateBreakupForRatioMetrics e num den nm dm op).data.length
        = (num.map fun p => p.dim_val.length).sum
      ∧ ∀ (dv : JsValue) (p : NumPoint),
          (p.dim_val.isEmpty || p.sum_kpi.isEmpty) = true →
          rowsForPoint e op (metricName nm) (metricName dm) dv p = [] := by
  constructor
  · rw [calculateBreakupForRatioMetrics, if_neg (by simpa using hne)]
    exact ratioRowsAux_length e op (metricName nm) (metricName dm) den
      (den.length - num.length) num 0 hpar (by omega)
  · intro dv p hp
    rw [rowsForPoint, if_pos hp]

/-- C5: for an empty numerator series `calculateBreakupForRatioMetrics`
returns an empty row list, issues no evaluator call, and its result does not
depend on the evaluator or the expression at all. -/
theorem claim_C5_empty_numerator (e e' : String → Scope → JsValue)
    (den : List DenPoint) (nm dm : List MetricRef) (op op' : String) :
    (calculateBreakupForRatioMetrics e [] den nm dm op).data = []
      ∧ ratioEvalCalls [] den nm dm = []
      ∧ calculateBreakupForRatioMetrics e [] den nm dm op
          = calculateBreakupForRatioMetrics e' [] den nm dm op' :=
  ⟨rfl, rfl, rfl⟩

/-- C6: `calculateBreakupForRatioMetrics` passes evaluator results through
unchanged — the emitted values are exactly the evaluator's results on the
scopes it was invoked with (for an arbitrary evaluator, hence also when the
result is infinite or undefined) — and every scope binds the numerator name
to a raw element of the point's decoded value list (which may be null),
without coercion. -/
theorem claim_C6_no_special_casing (e : String → Scope → JsValue)
    (num : List NumPoint) (den : List DenPoint) (nm dm : List MetricRef)
    (op : String) :
    (calculateBreakupForRatioMetrics e num den nm dm op).data.map (fun r => r.sum_kpi)
        = (ratioEvalCalls num den nm dm).map (e op)
      ∧ ∀ sc ∈ ratioEvalCalls num den nm dm,
          ∃ p, p ∈ num ∧ ∃ v, v ∈ p.sum_kpi ∧
            ∃ dv, sc = ratioScope (metricName nm) (metricName dm) v dv := by
  constructor
  · rw [calculateBreakupForRatioMetrics, ratioEvalCalls]
    by_cases hemp : num.isEmpty
    · rw [if_pos hemp, if_pos hemp]; rfl
    · rw [if_neg hemp, if_neg hemp]
      exact ratioRowsAux_map_val e op (metricName nm) (metricName dm) den
        (den.length - num.length) num 0
  · intro sc hsc
    rw [ratioEvalCalls] at hsc
    by_cases hemp : num.isEmpty
    · rw [if_pos hemp] at hsc
      simp at hsc
    · rw [if_neg hemp] at hsc
      exact mem_ratioCallsAux (metricName nm) (metricName dm) den
        (den.length - num.length) num 0 sc hsc

/-- C7: `getSortedDimensionsBreakup` returns a permutation of its input rows
— no row is added, removed or duplicated, and the output length equals the
input length, for every input (including the empty list) and every canonical
order. -/
theorem claim_C7_permutation (rows : List DataRow)
    (sortOrderArray : List SortOrderEntry) :
    List.Perm (getSortedDimensionsBreakup rows sortOrderArray) rows
      ∧ (getSortedDimensionsBreakup rows sortOrderArray).length = rows.length :=
  ⟨List.perm_insertionSort _ rows, List.length_insertionSort _ rows⟩

/-- C8: `getSortedDimensionsBreakup` is idempotent — re-sorting its own
output with the same canonical order leaves the order unchanged. -/
theorem claim_C8_idempotent (rows : List DataRow)
    (sortOrderArray : List SortOrderEntry) :
    getSortedDimensionsBreakup (getSortedDimensionsBreakup rows sortOrderArray)
        sortOrderArray
      = getSortedDimensionsBreakup rows sortOrderArray :=
  List.Sorted.insertionSort_eq
    (List.sorted_insertionSort (dimComparator sortOrderArray) rows)

theorem executeQueryWithFallback_retry {α : Type} (exec : Bool → PolarisResponse α)
    (h : (exec false).status = 404 ∨ (exec false).status = 400) :
    executeQueryWithFallback exec
      = { resp := exec true, attempts := 2, warnings := 1 } := by
  simp only [executeQueryWithFallback]
  rw [if_pos h]

theorem executeQueryWithFallback_no_retry {α : Type} (exec : Bool → PolarisResponse α)
    (h : ¬((exec false).status = 404 ∨ (exec false).status = 400)) :
    executeQueryWithFallback exec
      = { resp := exec false, attempts := 1, warnings := 0 } := by
  simp only [executeQueryWithFallback]
  rw [if_neg h]

/-- C3: for every frequency, `getDefaultTimeRange` returns a range whose end
minus start is exactly the frequency's lookback (h: 2 days, d: 7, w: 30,
m: 90), whatever the query returned; the end is the returned `last_data_ts`
when the final response has success status and at least one record, and the
current wall-clock time otherwise. -/
theorem claim_C3_default_range (lastTsExec : Bool → PolarisResponse TsRecord)
    (now : Instant) (frequency : Frequency) :
    (getDefaultTimeRange lastTsExec now frequency).1.end_time
        - (getDefaultTimeRange lastTsExec now frequency).1.start_time
        = msPerDay * lookbackDays frequency
      ∧ lookbackDays Frequency.h = 2 ∧ lookbackDays Frequency.d = 7
      ∧ lookbackDays Frequency.w = 30 ∧ lookbackDays Frequency.m = 90
      ∧ (∀ (rec : TsRecord) (rest : List TsRecord),
          (executeQueryWithFallback lastTsExec).resp.status = 200 →
          (executeQueryWithFallback lastTsExec).resp.data = rec :: rest →
          (getDefaultTimeRange lastTsExec now frequency).1.end_time
            = rec.last_data_ts)
      ∧ ((executeQueryWithFallback lastTsExec).resp.status ≠ 200
           ∨ (executeQueryWithFallback lastTsExec).resp.data = [] →
          (getDefaultTimeRange lastTsExec now frequency).1.end_time = now) := by
  refine ⟨?_, rfl, rfl, rfl, rfl, ?_, ?_⟩
  · simp only [getDefaultTimeRange]
    ring
  · intro rec rest h200 hdata
    simp only [getDefaultTimeRange, hdata]
    rw [if_pos h200]
  · intro h
    rcases hdata : (executeQueryWithFallback lastTsExec).resp.data with _ | ⟨r, rs⟩
    · simp only [getDefaultTimeRange, hdata]
    · rcases h with h | h
      · simp only [getDefaultTimeRange, hdata]
        rw [if_neg h]
      · rw [h] at hdata
        exact absurd hdata (by simp)

/-- C1: on a primary breakup-fetch status of 404 or 400
`getMetricsComparisonData` logs one warning and re-issues the logical query
against the fallback source exactly once (two attempts, final response is the
fallback's); if the fallback's status is also non-success the call fails with
the upstream query error and no third attempt is made; any other non-success
primary status fails immediately with the upstream query error after a single
attempt, no fallback and no warning. -/
theorem claim_C1_fallback_retry (env : Env) (req : Request) (kpi : Kpi)
    (d : Dimension) (s e : Instant)
    (hm : env.metric = some kpi) (ht : kpi.type = MetricType.simple)
    (hd : env.dimension = some d)
    (hs : req.start_time = some s) (he : req.end_time = some e) :
    (((env.breakupExec false).status = 404 ∨ (env.breakupExec false).status = 400) →
        executeQueryWithFallback env.breakupExec
          = { resp := env.breakupExec true, attempts := 2, warnings := 1 }
        ∧ ((env.breakupExec true).status ≠ 200 →
            getMetricsComparisonData env req
              = (.error .upstreamQueryError, 1)))
      ∧ (((env.breakupExec false).status ≠ 200 ∧
          (env.breakupExec false).status ≠ 404 ∧
          (env.breakupExec false).status ≠ 400) →
        executeQueryWithFallback env.breakupExec
          = { resp := env.breakupExec false, attempts := 1, warnings := 0 }
        ∧ getMetricsComparisonData env req = (.error .upstreamQueryError, 0)) := by
  constructor
  · intro h404
    have hfb := executeQueryWithFallback_retry env.breakupExec h404
    refine ⟨hfb, fun hfail => ?_⟩
    simp only [getMetricsComparisonData, hm, hd, hs, he, ht, hfb]
    rw [if_pos hfail]
  · intro ⟨h200, h404, h400⟩
    have hfb := executeQueryWithFallback_no_retry env.breakupExec (by tauto)
    refine ⟨hfb, ?_⟩
    simp only [getMetricsComparisonData, hm, hd, hs, he, ht, hfb]
    rw [if_pos h200]

/-- C9: for a ratio metric whose resolved definition has no
`constituent_metrics`, or whose constituents lack numerator or denominator
entries, `getMetricsComparisonData` fails with the missing-constituents
error, whatever any of the query executors would have answered (no query is
consulted and nothing is retried). -/
theorem claim_C9_missing_constituents (env : Env) (req : Request) (kpi : Kpi)
    (d : Dimension)
    (hm : env.metric = some kpi) (ht : kpi.type = MetricType.ratioKind)
    (hd : env.dimension = some d)
    (hc : kpi.constituent_metrics = none
        ∨ ∃ cm, kpi.constituent_metrics = some cm
            ∧ (cm.numerator = [] ∨ cm.denominator = [])) :
    ∀ (be : Bool → PolarisResponse DataRow) (ne : Bool → PolarisResponse NumPoint)
      (de : Bool → PolarisResponse DenPoint)
      (se : Bool → PolarisResponse SortOrderEntry),
      (getMetricsComparisonData
          { env with breakupExec := be, numExec := ne,
                     denomExec := de, sortExec := se } req).1
        = .error .missingConstituentMetrics := by
  intro be ne de se
  rcases hc with hc | ⟨cm, hcm, hempty⟩
  · simp only [getMetricsComparisonData, hm, hd, ht, hc]
  · rcases hempty with h | h <;>
      simp [getMetricsComparisonData, hm, hd, ht, hcm, h]

/-- C10: the single-fallback retry applies uniformly to every query issued
through the service's query path: any executor handed to
`executeQueryWithFallback` is retried on the fallback source exactly once on
a 404/400 primary status (one warning) and not retried otherwise; and on the
no-explicit-time-range path `getMetricsComparisonData` routes the
last-data-timestamp fetch, the breakup series fetch and the canonical
sort-order fetch all through that path, its warning total being the sum of
the three queries' fallback warnings. -/
theorem claim_C10_uniform_fallback (env : Env) (req : Request) (kpi : Kpi)
    (d : Dimension)
    (hm : env.metric = some kpi) (ht : kpi.type = MetricType.simple)
    (hd : env.dimension = some d) (hs : req.start_time = none) :
    (∀ (α : Type) (exec : Bool → PolarisResponse α),
        (((exec false).status = 404 ∨ (exec false).status = 400) →
          executeQueryWithFallback exec
            = { resp := exec true, attempts := 2, warnings := 1 })
        ∧ (¬((exec false).status = 404 ∨ (exec false).status = 400) →
          executeQueryWithFallback exec
            = { resp := exec false, attempts := 1, warnings := 0 }))
      ∧ ((executeQueryWithFallback env.breakupExec).resp.status = 200 →
         (executeQueryWithFallback env.sortExec).resp.status = 200 →
         getMetricsComparisonData env req
           = (.ok (assembleGroups (executeQueryWithFallback env.sortExec).resp.data
                     (executeQueryWithFallback env.breakupExec).resp.data),
              (executeQueryWithFallback env.lastTsExec).warnings
                + (executeQueryWithFallback env.breakupExec).warnings
                + (executeQueryWithFallback env.sortExec).warnings)) := by
  constructor
  · intro α exec
    exact ⟨executeQueryWithFallback_retry exec, executeQueryWithFallback_no_retry exec⟩
  · intro hb hsort
    simp only [getMetricsComparisonData, hm, hd, hs, ht, getDefaultTimeRange]
    rw [if_neg (by simp [hb]), if_neg (by simp [hsort])]

/-- Witness for C1, at the environment whose breakup query answers 404 on
both sources: the call fails with the upstream error after one warning. -/
theorem claim_C1_witness :
    getMetricsComparisonData witnessEnvFFail witnessReq
      = (.error .upstreamQueryError, 1) :=
  ((claim_C1_fallback_retry witnessEnvFFail witnessReq witnessKpiSimple
      witnessDimension 0 604800000 rfl rfl rfl rfl rfl).1
    (by decide)).2 (by decide)

/-- Witness for C2, at a one-point numerator and three-point denominator
(offset 2), mirroring the unit test's offset scenario. -/
theorem claim_C2_witness :
    witnessDen3.length = witnessNum.length + 2
      ∧ (calculateBreakupForRatioMetrics witnessEval witnessNum witnessDen3
           checkoutsRef visitorsRef "checkouts / visitors").data
          = alignmentSpecRows witnessEval "checkouts / visitors"
              (metricName checkoutsRef) (metricName visitorsRef)
              witnessNum witnessDen3 2 :=
  ⟨rfl, claim_C2_alignment_offset witnessEval witnessNum witnessDen3
     checkoutsRef visitorsRef "checkouts / visitors" 2 rfl⟩

/-- Witness for C3, at a concrete executor returning one record with
timestamp 1000 and at daily frequency. -/
theorem claim_C3_witness :
    (getDefaultTimeRange witnessLastTs200 555 Frequency.d).1.end_time = 1000 :=
  (claim_C3_default_range witnessLastTs200 555 Frequency.d).2.2.2.2.2.1
    { last_data_ts := 1000 } [] rfl rfl

/-- Witness for C4, at a two-point numerator with two and one labels and an
equal-length denominator: three rows in total. -/
theorem claim_C4_witness :
    (calculateBreakupForRatioMetrics witnessEval witnessNum4 witnessDen4
        checkoutsRef visitorsRef "checkouts / visitors").data.length
      = (witnessNum4.map fun p => p.dim_val.length).sum :=
  (claim_C4_row_count witnessEval witnessNum4 witnessDen4 checkoutsRef
    visitorsRef "checkouts / visitors" (by decide) rfl (by decide)).1

/-- Witness for C6, at the single-point series: the emitted values are the
evaluator's results on the recorded scopes. -/
theorem claim_C6_witness :
    (calculateBreakupForRatioMetrics witnessEval witnessNum witnessDen1
        checkoutsRef visitorsRef "checkouts / visitors").data.map
        (fun r => r.sum_kpi)
      = (ratioEvalCalls witnessNum witnessDen1 checkoutsRef visitorsRef).map
          (witnessEval "checkouts / visitors") :=
  (claim_C6_no_special_casing witnessEval witnessNum witnessDen1 checkoutsRef
    visitorsRef "checkouts / visitors").1

/-- Witness for C9, at a ratio metric with no constituents configured. -/
theorem claim_C9_witness :
    (getMetricsComparisonData
        { witnessEnvRatio with
          breakupExec := fun _ => resp404, numExec := fun _ => resp404,
          denomExec := fun _ => resp404, sortExec := fun _ => resp404 }
        witnessReq).1
      = .error .missingConstituentMetrics :=
  claim_C9_missing_constituents witnessEnvRatio witnessReq witnessKpiRatioBad
    witnessDimension rfl rfl rfl (Or.inl rfl)
    (fun _ => resp404) (fun _ => resp404) (fun _ => resp404) (fun _ => resp404)

/-- Witness for C10, on the no-explicit-range path with the
last-data-timestamp query needing its fallback: the warning total is the sum
of the three queries' fallback warnings. -/
theorem claim_C10_witness :
    getMetricsComparisonData witnessEnvC10 witnessReqNoRange
      = (.ok (assembleGroups
                (executeQueryWithFallback witnessEnvC10.sortExec).resp.data
                (executeQueryWithFallback witnessEnvC10.breakupExec).resp.data),
         (executeQueryWithFallback witnessEnvC10.lastTsExec).warnings
           + (executeQueryWithFallback witnessEnvC10.breakupExec).warnings
           + (executeQueryWithFallback witnessEnvC10.sortExec).warnings) :=
  (claim_C10_uniform_fallback witnessEnvC10 witnessReqNoRange witnessKpiSimple
    witnessDimension rfl rfl rfl rfl).2 (by decide) (by decide)

end MetricsComparison
